import Mathlib

/-!
# Verification of the MultiModal deep-research repository

Shallow embedding of the parts of the repository that the specification's
testable claims are about:

* `deduplicate_results`, `extract_entities`, `create_search_agent_prompt`
  and the `POST /summarize` handler from
  `deep_research_system/agents/web_search_summarizer.py`;
* `WebSearchTool._run` and `WebSearchTool._get_search_engines` from
  `deep_research_system/tools/search_tools.py`.

External effects (HTTP calls to search/LLM providers, the spaCy NER model)
are passed in as explicit function parameters ("oracles"); code that can
raise a Python exception is embedded with `Except String`.
Python strings are embedded as `List Char`; `str.lower`/`str.strip` are
modelled on the ASCII range (the repository's keyword tables and the
spec's examples are all ASCII).
-/

namespace MultiModal

/-! ## Python string primitives (ASCII model) -/

/-- Whitespace as recognised by Python's `str.strip()` with no argument,
restricted to the ASCII range: space, `\t`, `\n`, `\r`, `\x0b`, `\x0c`. -/
def pyIsSpace (c : Char) : Bool :=
  c = ' ' || c = '\t' || c = '\n' || c = '\r' || c = '\x0b' || c = '\x0c'

/-- Python `str.strip()`: drop leading and trailing whitespace. -/
def pyStrip (s : List Char) : List Char :=
  ((s.dropWhile pyIsSpace).reverse.dropWhile pyIsSpace).reverse

/-- Python `str.lower()` on a single character (ASCII model). -/
def pyLowerChar (c : Char) : Char :=
  if 'A' ≤ c ∧ c ≤ 'Z' then Char.ofNat (c.toNat + 32) else c

/-- Python `str.lower()` (ASCII model). -/
def pyLower (s : List Char) : List Char := s.map pyLowerChar

/-- Prefix test on character lists. -/
def isPrefixL : List Char → List Char → Bool
  | [], _ => true
  | _ :: _, [] => false
  | x :: xs, y :: ys => x = y && isPrefixL xs ys

/-- Python's `sub in s` substring test for strings. -/
def pyIn (sub s : List Char) : Bool :=
  (List.range (s.length + 1)).any (fun i => isPrefixL sub (s.drop i))

/-! ## `difflib.SequenceMatcher`

The deduplicator calls `SequenceMatcher(None, key, s).ratio()`.  `ratio()`
is `2*M/T`, where `T` is the total length of the two strings and `M` is
the total size of the matching blocks that `get_matching_blocks` finds:
recursively take the longest matching block — among maximal blocks the
one starting earliest in `a`, then earliest in `b` — and recurse on the
pieces to its left and to its right.  The `autojunk` heuristic of
`SequenceMatcher` only activates for strings of length ≥ 200 and is not
modelled; the comparison with the `0.85` threshold is modelled with exact
rational arithmetic. -/

/-- Length of the longest common prefix of two lists. -/
def commonRun : List Char → List Char → Nat
  | x :: xs, y :: ys => if x = y then commonRun xs ys + 1 else 0
  | _, _ => 0

/-- The matching run of `a[i:ahi]` against `b[j:bhi]` starting at `(i, j)`. -/
def runAt (a b : List Char) (ahi bhi i j : Nat) : Nat :=
  commonRun ((a.take ahi).drop i) ((b.take bhi).drop j)

/-- `SequenceMatcher.find_longest_match` on the windows `a[alo:ahi]`,
`b[blo:bhi]` (no junk): returns `(besti, bestj, bestsize)`, picking among
the maximal matching blocks the one with smallest start in `a`, then
smallest start in `b`. -/
def find_longest_match (a b : List Char) (alo ahi blo bhi : Nat) :
    Nat × Nat × Nat :=
  let pairs := (List.range' alo (ahi - alo)).flatMap
    (fun i => (List.range' blo (bhi - blo)).map (fun j => (i, j)))
  pairs.foldl
    (fun best ij =>
      let k := runAt a b ahi bhi ij.1 ij.2
      if best.2.2 < k then (ij.1, ij.2, k) else best)
    (alo, blo, 0)

/-- Total size of the matching blocks of `get_matching_blocks` on the
window `(alo, ahi, blo, bhi)`, with explicit fuel (every recursive call
shrinks the window, so `ahi + bhi + 1` fuel at the top level suffices). -/
def smMatchesAux (a b : List Char) :
    Nat → Nat × Nat × Nat × Nat → Nat
  | 0, _ => 0
  | fuel + 1, (alo, ahi, blo, bhi) =>
    let m := find_longest_match a b alo ahi blo bhi
    if m.2.2 = 0 then 0
    else
      m.2.2 + smMatchesAux a b fuel (alo, m.1, blo, m.2.1)
        + smMatchesAux a b fuel (m.1 + m.2.2, ahi, m.2.1 + m.2.2, bhi)

/-- `M`: the number of matched characters between `a` and `b`. -/
def smMatches (a b : List Char) : Nat :=
  smMatchesAux a b (a.length + b.length + 1) (0, a.length, 0, b.length)

/-- `SequenceMatcher(None, a, b).ratio()`, as an exact rational:
`2*M/T`, and `1` when both strings are empty (difflib's
`_calculate_ratio`). -/
def sm_ratio (a b : List Char) : ℚ :=
  if a.length + b.length = 0 then 1
  else 2 * (smMatches a b : ℚ) / ((a.length : ℚ) + (b.length : ℚ))

/-! ## `deduplicate_results` (web_search_summarizer.py, lines 58–68) -/

/-- The `{title, snippet, url}` record of the summarizer service
(pydantic model `SearchResult` of `web_search_summarizer.py`). -/
structure ResultR where
  title : String
  snippet : String
  url : String
deriving DecidableEq, Repr

/-- The deduplication key of a result: `r['title'].strip().lower()`. -/
def dedupKey (t : String) : List Char := pyLower (pyStrip t.toList)

/-- The default `threshold=0.85` of `deduplicate_results`. -/
def DEDUP_THRESHOLD : ℚ := 85 / 100

/-- Worker for `deduplicate_results`: `seen` is the set of keys of the
already-kept results (a Python `set`, used only through `any`, so a list
is a faithful model); a result is dropped when
`any(SequenceMatcher(None, key, s).ratio() > threshold for s in seen)`,
otherwise its key is added to `seen` and the result is kept. -/
def dedupGo (threshold : ℚ) :
    List ResultR → List (List Char) → List ResultR
  | [], _ => []
  | r :: rs, seen =>
    if seen.any (fun s => decide (threshold < sm_ratio (dedupKey r.title) s)) then
      dedupGo threshold rs seen
    else
      r :: dedupGo threshold rs (seen ++ [dedupKey r.title])

/-- `deduplicate_results(results, threshold=0.85)` at its default
threshold (every call site uses the default). -/
def deduplicate_results (results : List ResultR) : List ResultR :=
  dedupGo DEDUP_THRESHOLD results []

/-- `ratio() > 0.85` decided with integer arithmetic
(`2*M/T > 17/20 ↔ 40*M > 17*T`); proved equal to the rational
comparison in `simGt85_eq`. -/
def simGt85 (a b : List Char) : Bool :=
  if a.length + b.length = 0 then true
  else decide (17 * (a.length + b.length) < 40 * smMatches a b)

/-- `dedupGo` at the default threshold with the integer-arithmetic
similarity test; proved equal to `dedupGo DEDUP_THRESHOLD` in
`dedupGo_eq_fast`, and used to evaluate `deduplicate_results` on
concrete inputs. -/
def dedupFast : List ResultR → List (List Char) → List ResultR
  | [], _ => []
  | r :: rs, seen =>
    if seen.any (fun s => simGt85 (dedupKey r.title) s) then
      dedupFast rs seen
    else
      r :: dedupFast rs (seen ++ [dedupKey r.title])

/-- The keep-flags of the deduplicator, following the spec's wording:
a position is kept exactly when its key has similarity ratio not above
the threshold with the key of *every previously kept* position
(first-seen wins).  `kept` accumulates the keys of the kept positions. -/
def specFlagsGo (threshold : ℚ) :
    List (List Char) → List (List Char) → List Bool
  | [], _ => []
  | k :: ks, kept =>
    (kept.all fun s => decide (sm_ratio k s ≤ threshold)) ::
      specFlagsGo threshold ks
        (if kept.all (fun s => decide (sm_ratio k s ≤ threshold)) then
          kept ++ [k]
        else kept)

/-- Spec-side keep-flags of a result list, starting from no kept titles. -/
def specFlags (threshold : ℚ) (results : List ResultR) : List Bool :=
  specFlagsGo threshold (results.map (fun r => dedupKey r.title)) []

/-- Filter a list by a parallel mask of Booleans. -/
def maskFilter : List ResultR → List Bool → List ResultR
  | r :: rs, b :: bs =>
    if b then r :: maskFilter rs bs else maskFilter rs bs
  | _, _ => []

/-- The dedup key of the `i`-th result of a list (`[]` out of range). -/
def keyAt (results : List ResultR) (i : Nat) : List Char :=
  (results.map (fun r => dedupKey r.title)).getD i []

/-! ## Query classification (create_search_agent_prompt, lines 125–173)

`create_search_agent_prompt` lowercases the query once and tests six
keyword lists with Python's substring operator `in`; the first matching
category of the `if/elif` chain selects the template. -/

/-- Keywords of `is_list_query` (line 126). -/
def LIST_WORDS : List String :=
  ["top", "list", "best", "worst", "ranking", "ranked", "10", "5", "3", "20"]

/-- Keywords of `is_how_to_query` (line 127). -/
def HOW_TO_WORDS : List String :=
  ["how to", "how do", "steps", "guide", "tutorial", "process"]

/-- Keywords of `is_definition_query` (line 128). -/
def DEFINITION_WORDS : List String :=
  ["what is", "define", "definition", "meaning", "explain"]

/-- Keywords of `is_comparison_query` (line 129). -/
def COMPARISON_WORDS : List String :=
  ["vs", "versus", "compare", "difference", "better", "which"]

/-- Keywords of `is_news_query` (line 130). -/
def NEWS_WORDS : List String :=
  ["latest", "recent", "news", "update", "2024", "2025", "announcement"]

/-- Keywords of `is_technical_query` (line 131). -/
def TECHNICAL_WORDS : List String :=
  ["api", "code", "programming", "technical", "implementation", "architecture"]

/-- `any(word in query_lower for word in words)`. -/
def anyKeyword (words : List String) (q : String) : Bool :=
  words.any (fun w => pyIn w.toList (pyLower q.toList))

def is_list_query (q : String) : Bool := anyKeyword LIST_WORDS q
def is_how_to_query (q : String) : Bool := anyKeyword HOW_TO_WORDS q
def is_definition_query (q : String) : Bool := anyKeyword DEFINITION_WORDS q
def is_comparison_query (q : String) : Bool := anyKeyword COMPARISON_WORDS q
def is_news_query (q : String) : Bool := anyKeyword NEWS_WORDS q
def is_technical_query (q : String) : Bool := anyKeyword TECHNICAL_WORDS q

/-- The seven prompt templates of `create_search_agent_prompt`: six
keyword-selected categories plus the `else` (general) template. -/
inductive QueryCategory where
  | list | howTo | definition | comparison | news | technical | general
deriving DecidableEq, Repr

/-- The `if/elif/else` chain of `create_search_agent_prompt`: first
matching category wins. -/
def classifyQuery (q : String) : QueryCategory :=
  if is_list_query q then .list
  else if is_how_to_query q then .howTo
  else if is_definition_query q then .definition
  else if is_comparison_query q then .comparison
  else if is_news_query q then .news
  else if is_technical_query q then .technical
  else .general

/-! ## Entity extraction (extract_entities, lines 45–56)

The spaCy pipeline `nlp` is passed in as an oracle
`nlpFn : String → Except String (List (String × String))` returning the
`(ent.text, ent.label_)` pairs of a snippet, or the message of the raised
exception.  `extract_entities` itself contains no exception handling, so
an `nlpFn` failure propagates. -/

/-- The entity-label allow-list of `extract_entities` (line 51). -/
def ENTITY_LABELS : List String :=
  ["ORG", "PRODUCT", "PERSON", "GPE", "DATE", "EVENT", "WORK_OF_ART"]

/-- `collections.Counter` of a list: pairs `(element, count)` in order of
first occurrence. -/
def counterCounts (l : List (String × String)) :
    List ((String × String) × Nat) :=
  l.foldl
    (fun acc x =>
      if acc.any (fun p => p.1 = x) then
        acc.map (fun p => if p.1 = x then (p.1, p.2 + 1) else p)
      else acc ++ [(x, 1)])
    []

/-- `Counter.most_common(n)`: sort by count descending — stable, i.e.
equal counts keep first-occurrence order — and take the first `n`. -/
def mostCommon (n : Nat) (counts : List ((String × String) × Nat)) :
    List ((String × String) × Nat) :=
  (counts.insertionSort (fun p q => q.2 < p.2)).take n

/-- `extract_entities(snippets)`: run NER over each snippet, keep the
entities whose label is in the allow-list, and return the 10 most common
`(text, label)` pairs with their counts.  No exception is caught: the
first failing `nlp(text)` call aborts the whole extraction. -/
def extract_entities (nlpFn : String → Except String (List (String × String)))
    (snippets : List String) :
    Except String (List ((String × String) × Nat)) := do
  let mut entities : List (String × String) := []
  for text in snippets do
    let ents ← nlpFn text
    for e in ents do
      if ENTITY_LABELS.contains e.2 then
        entities := entities ++ [e]
  return mostCommon 10 (counterCounts entities)

/-! ## create_search_agent_prompt (lines 101–173)

The literal prompt-template strings (thousands of characters of
formatting instructions) are not reproduced; the embedding keeps the
function's observable structure — deduplicate, extract entities
(failure propagates), classify the query to pick one of the seven
templates — which is everything the specification's claims mention. -/

/-- The data `create_search_agent_prompt` computes before rendering a
template. -/
structure PromptData where
  dedupedResults : List ResultR
  topEntities : List ((String × String) × Nat)
  category : QueryCategory
deriving DecidableEq, Repr

/-- `create_search_agent_prompt(query, results)` with the NER oracle
explicit.  `extract_entities` is called with no surrounding `try`, so its
failure propagates out of this function. -/
def create_search_agent_prompt
    (nlpFn : String → Except String (List (String × String)))
    (query : String) (results : List ResultR) :
    Except String PromptData := do
  let deduped := deduplicate_results results
  let snippets := deduped.map (fun r => r.snippet)
  let top_entities ← extract_entities nlpFn snippets
  return ⟨deduped, top_entities, classifyQuery query⟩

/-! ## The summarize endpoint (lines 175–246) -/

/-- `SummarizeRequest` (the pydantic request body of `POST /summarize`). -/
structure SummarizeRequest where
  query : String
  results : List ResultR
  model : String
deriving Repr

/-- `SummarizeResponse`. -/
structure SummarizeResponse where
  summary : String
  model_used : String
deriving DecidableEq, Repr

/-- `CLAUDE_MODELS` (lines 86–92). -/
def CLAUDE_MODELS : List String :=
  ["claude-3-sonnet-20240229", "claude-3-haiku-20240307",
   "claude-3-opus-20240229", "claude-2.1", "claude-instant-1.2"]

/-- `GEMINI_MODELS` (lines 94–99). -/
def GEMINI_MODELS : List String :=
  ["gemini-1.5-pro", "gemini-1.5-flash", "gemini-pro", "gemini-1.0-pro"]

/-- The fallback loop of the `claude`/`gemini` branches: try each
concrete model in order (each attempt wrapped in `try/except`), return
the first successful completion together with the concrete model name. -/
def tryVariants (call : String → Option String) :
    List String → Option (String × String)
  | [] => none
  | m :: ms =>
    match call m with
    | some s => some (s, m)
    | none => tryVariants call ms

/-- The placeholder of line 237. -/
def unableMsg (model : String) : String :=
  "Unable to generate summary with the selected model: " ++ model

/-- The prefix of the outer `except` handler's placeholder (line 241). -/
def ERROR_PREFIX : String := "Error generating summary: "

/-- The model-dispatch of `summarize` after the prompt is built
(lines 185–246).  `gpt` is the result of the single un-looped GPT-4o
call (`Except.error e` models the call raising, which reaches the outer
`except` handler); `claudeCall`/`geminiCall` give each concrete model
variant's outcome (`none` models that attempt raising, caught by the
inner `try/except`).  The final `if not summary` also replaces an empty
successful completion by the placeholder. -/
def summarizeDispatch (model : String) (gpt : Except String String)
    (claudeCall geminiCall : String → Option String) : SummarizeResponse :=
  if model = "gpt-4o" then
    match gpt with
    | .error e => ⟨ERROR_PREFIX ++ e, model⟩
    | .ok s => ⟨if s = "" then unableMsg model else s, model⟩
  else
    let attempt : Option (String × String) :=
      if model = "claude" then tryVariants claudeCall CLAUDE_MODELS
      else if model = "gemini" then tryVariants geminiCall GEMINI_MODELS
      else none
    match attempt with
    | some (s, m) => ⟨if s = "" then unableMsg model else s, m⟩
    | none => ⟨unableMsg model, model⟩

/-- The `POST /summarize` handler.  The prompt (and with it entity
extraction) is built at line 183, *before* the `try:` of line 188, so a
failure there propagates out of the endpoint (`Except.error`); otherwise
the handler always returns a `SummarizeResponse`. -/
def summarize_endpoint
    (nlpFn : String → Except String (List (String × String)))
    (gpt : Except String String)
    (claudeCall geminiCall : String → Option String)
    (req : SummarizeRequest) : Except String SummarizeResponse := do
  let _prompt ← create_search_agent_prompt nlpFn req.query req.results
  return summarizeDispatch req.model gpt claudeCall geminiCall

/-! ## Web search aggregation (search_tools.py)

Provider HTTP calls are an oracle
`call : String → String → Nat → Except String (List SearchResultS)`
(engine name, query, requested count); `Except.error` models the call
raising. -/

/-- The `SearchResult` pydantic model of `search_tools.py`
(`relevance_score`, a Python float, is modelled as a rational). -/
structure SearchResultS where
  title : String
  url : String
  snippet : String
  source : String
  relevance_score : ℚ
  content : Option String
deriving DecidableEq, Repr

/-- Truthiness of the search-provider credentials in `Config`
(`Config.TAVILY_API_KEY` etc.). -/
structure SearchConfig where
  tavily : Bool
  serper : Bool
  google : Bool
  brave : Bool
deriving DecidableEq, Repr

/-- The static priority order of the keyed providers in auto mode. -/
def STATIC_PRIORITY : List String := ["tavily", "serper", "google", "brave"]

/-- Whether an engine's credential is configured. -/
def configured (cfg : SearchConfig) : String → Bool
  | "tavily" => cfg.tavily
  | "serper" => cfg.serper
  | "google" => cfg.google
  | "brave" => cfg.brave
  | _ => false

/-- `WebSearchTool._get_search_engines` (lines 67–92). -/
def getSearchEngines (cfg : SearchConfig) (preferred : String) : List String :=
  if preferred ≠ "auto" then
    [preferred] ++ (if preferred ≠ "duckduckgo" then ["duckduckgo"] else [])
  else
    ((((if cfg.tavily then ["tavily"] else []) ++
       (if cfg.serper then ["serper"] else [])) ++
       (if cfg.google then ["google"] else [])) ++
       (if cfg.brave then ["brave"] else [])) ++ ["duckduckgo"]

/-- One iteration body of the `for engine in search_engines` loop of
`WebSearchTool._run`: the `if/elif` chain guarded by engine name and
credential truthiness.  When no branch matches (a keyed engine without
its credential, or an unknown engine name) nothing is called and the
results are unchanged, modelled as `Except.ok []`. -/
def engineAttempt (cfg : SearchConfig)
    (call : String → String → Nat → Except String (List SearchResultS))
    (query : String) (need : Nat) (engine : String) :
    Except String (List SearchResultS) :=
  if engine = "tavily" ∧ cfg.tavily then call "tavily" query need
  else if engine = "serper" ∧ cfg.serper then call "serper" query need
  else if engine = "google" ∧ cfg.google then call "google" query need
  else if engine = "brave" ∧ cfg.brave then call "brave" query need
  else if engine = "duckduckgo" then call "duckduckgo" query need
  else .ok []

/-- The provider loop of `WebSearchTool._run` (lines 41–63): stop when
the cap is reached; extend the accumulated results on success; on an
exception, log and move to the next engine. -/
def searchLoop (cfg : SearchConfig)
    (call : String → String → Nat → Except String (List SearchResultS))
    (query : String) (max_results : Nat) :
    List String → List SearchResultS → List SearchResultS
  | [], results => results
  | engine :: rest, results =>
    if max_results ≤ results.length then results
    else
      match engineAttempt cfg call query (max_results - results.length) engine with
      | .ok rs => searchLoop cfg call query max_results rest (results ++ rs)
      | .error _ => searchLoop cfg call query max_results rest results

/-- `WebSearchTool._run(query, max_results, preferred_engine)`
(lines 35–65): run the provider loop over `_get_search_engines` and
return `results[:max_results]`. -/
def WebSearchTool_run (cfg : SearchConfig)
    (call : String → String → Nat → Except String (List SearchResultS))
    (query : String) (max_results : Nat) (preferred_engine : String) :
    List SearchResultS :=
  (searchLoop cfg call query max_results
    (getSearchEngines cfg preferred_engine) []).take max_results

/-! # Theorems

## Support lemmas for the deduplicator -/

theorem simGt85_eq (a b : List Char) :
    simGt85 a b = decide (DEDUP_THRESHOLD < sm_ratio a b) := by
  by_cases h : a.length + b.length = 0
  · simp only [simGt85, sm_ratio, if_pos h]
    rw [eq_comm, decide_eq_true_eq]
    norm_num [DEDUP_THRESHOLD]
  · have hT : (0 : ℚ) < (a.length : ℚ) + (b.length : ℚ) := by
      have h0 := Nat.pos_of_ne_zero h
      exact_mod_cast h0
    simp only [simGt85, sm_ratio, if_neg h]
    rw [decide_eq_decide, DEDUP_THRESHOLD, lt_div_iff₀ hT]
    constructor
    · intro hn
      have hq : ((17 * (a.length + b.length) : ℕ) : ℚ) <
          ((40 * smMatches a b : ℕ) : ℚ) := by exact_mod_cast hn
      push_cast at hq
      nlinarith
    · intro hq
      have hq2 : ((17 * (a.length + b.length) : ℕ) : ℚ) <
          ((40 * smMatches a b : ℕ) : ℚ) := by
        push_cast
        nlinarith
      exact_mod_cast hq2

theorem sim_gt_of_simGt85 {a b : List Char} (h : simGt85 a b = true) :
    DEDUP_THRESHOLD < sm_ratio a b := by
  have he := simGt85_eq a b
  rw [h] at he
  exact of_decide_eq_true he.symm

theorem dedupGo_eq_fast :
    ∀ (rs : List ResultR) (seen : List (List Char)),
      dedupGo DEDUP_THRESHOLD rs seen = dedupFast rs seen := by
  intro rs
  induction rs with
  | nil => intro seen; rfl
  | cons r rs ih =>
    intro seen
    simp only [dedupGo, dedupFast, simGt85_eq, ih]

theorem dedupGo_sublist (θ : ℚ) :
    ∀ (rs : List ResultR) (seen : List (List Char)),
      (dedupGo θ rs seen).Sublist rs := by
  intro rs
  induction rs with
  | nil => intro seen; simp [dedupGo]
  | cons r rs ih =>
    intro seen
    simp only [dedupGo]
    by_cases hg :
        (seen.any fun s => decide (θ < sm_ratio (dedupKey r.title) s)) = true
    · rw [if_pos hg]
      exact (ih seen).cons r
    · rw [if_neg hg]
      exact (ih _).cons₂ r

theorem any_gt_eq_not_all_le (θ : ℚ) (k : List Char) :
    ∀ (l : List (List Char)),
      (l.any fun s => decide (θ < sm_ratio k s)) =
        !(l.all fun s => decide (sm_ratio k s ≤ θ)) := by
  intro l
  induction l with
  | nil => rfl
  | cons s l ih =>
    simp only [List.any_cons, List.all_cons, ih, Bool.not_and]
    congr 1
    rw [← decide_not, decide_eq_decide]
    exact not_le.symm

theorem dedupGo_eq_maskFilter (θ : ℚ) :
    ∀ (rs : List ResultR) (seen : List (List Char)),
      dedupGo θ rs seen =
        maskFilter rs
          (specFlagsGo θ (rs.map fun r => dedupKey r.title) seen) := by
  intro rs
  induction rs with
  | nil => intro seen; rfl
  | cons r rs ih =>
    intro seen
    simp only [List.map_cons, dedupGo, specFlagsGo, maskFilter,
      any_gt_eq_not_all_le]
    cases hall : (seen.all fun s => decide (sm_ratio (dedupKey r.title) s ≤ θ)) with
    | false => simp [ih]
    | true => simp [ih]

theorem specFlagsGo_length (θ : ℚ) :
    ∀ (ks kept : List (List Char)),
      (specFlagsGo θ ks kept).length = ks.length := by
  intro ks
  induction ks with
  | nil => intro kept; rfl
  | cons k ks ih => intro kept; simp [specFlagsGo, ih]

theorem specFlagsGo_kept_le (θ : ℚ) :
    ∀ (ks kept : List (List Char)) (s : List Char), s ∈ kept →
      ∀ i, i < ks.length →
        (specFlagsGo θ ks kept).getD i false = true →
        sm_ratio (ks.getD i []) s ≤ θ := by
  intro ks
  induction ks with
  | nil =>
    intro kept s hs i hi
    exact absurd hi (Nat.not_lt_zero i)
  | cons k ks ih =>
    intro kept s hs i hi hf
    match i with
    | 0 =>
      simp only [specFlagsGo, List.getD_cons_zero] at hf
      simp only [List.getD_cons_zero]
      exact of_decide_eq_true (List.all_eq_true.mp hf s hs)
    | i + 1 =>
      simp only [specFlagsGo, List.getD_cons_succ] at hf
      simp only [List.getD_cons_succ]
      have hi' : i < ks.length := Nat.lt_of_succ_lt_succ hi
      cases hkeep : (kept.all fun t => decide (sm_ratio k t ≤ θ)) with
      | false =>
        rw [hkeep] at hf
        simp only [if_neg Bool.false_ne_true] at hf
        exact ih kept s hs i hi' hf
      | true =>
        rw [hkeep] at hf
        simp only [if_pos rfl] at hf
        exact ih (kept ++ [k]) s (List.mem_append_left _ hs) i hi' hf

theorem specFlagsGo_pairwise (θ : ℚ) :
    ∀ (ks kept : List (List Char)) (i j : Nat), i < j → j < ks.length →
      (specFlagsGo θ ks kept).getD i false = true →
      θ < sm_ratio (ks.getD j []) (ks.getD i []) →
      (specFlagsGo θ ks kept).getD j false = false := by
  intro ks
  induction ks with
  | nil =>
    intro kept i j hij hj
    exact absurd hj (Nat.not_lt_zero j)
  | cons k ks ih =>
    intro kept i j hij hj hi hr
    match i, j with
    | 0, j + 1 =>
      simp only [specFlagsGo, List.getD_cons_zero, List.getD_cons_succ]
        at hi hr ⊢
      rw [hi, if_pos rfl]
      have hj' : j < ks.length := Nat.lt_of_succ_lt_succ hj
      cases hfj : (specFlagsGo θ ks (kept ++ [k])).getD j false with
      | false => rfl
      | true =>
        exact absurd hr (not_lt.mpr
          (specFlagsGo_kept_le θ ks (kept ++ [k]) k
            (List.mem_append_right _ (List.mem_singleton_self k)) j hj' hfj))
    | i + 1, j + 1 =>
      simp only [specFlagsGo, List.getD_cons_succ] at hi hr ⊢
      have hij' : i < j := Nat.lt_of_succ_lt_succ hij
      have hj' : j < ks.length := Nat.lt_of_succ_lt_succ hj
      cases hkeep : (kept.all fun t => decide (sm_ratio k t ≤ θ)) with
      | false =>
        rw [hkeep] at hi
        simp only [if_neg Bool.false_ne_true] at hi ⊢
        exact ih kept i j hij' hj' hi hr
      | true =>
        rw [hkeep] at hi
        simp only [if_pos rfl] at hi ⊢
        exact ih (kept ++ [k]) i j hij' hj' hi hr

theorem specFlagsGo_false_reason (θ : ℚ) :
    ∀ (ks kept : List (List Char)) (i : Nat), i < ks.length →
      (specFlagsGo θ ks kept).getD i false = false →
      (∃ s ∈ kept, θ < sm_ratio (ks.getD i []) s) ∨
        (∃ j, j < i ∧ (specFlagsGo θ ks kept).getD j false = true ∧
          θ < sm_ratio (ks.getD i []) (ks.getD j [])) := by
  intro ks
  induction ks with
  | nil =>
    intro kept i hi
    exact absurd hi (Nat.not_lt_zero i)
  | cons k ks ih =>
    intro kept i hi hf
    match i with
    | 0 =>
      left
      simp only [specFlagsGo, List.getD_cons_zero] at hf
      obtain ⟨s, hs, hps⟩ := List.all_eq_false.mp hf
      exact ⟨s, hs, by simpa [not_le] using hps⟩
    | i + 1 =>
      have hi' : i < ks.length := Nat.lt_of_succ_lt_succ hi
      simp only [specFlagsGo, List.getD_cons_succ] at hf ⊢
      cases hkeep : (kept.all fun t => decide (sm_ratio k t ≤ θ)) with
      | true =>
        rw [hkeep] at hf
        simp only [if_pos rfl] at hf
        rcases ih (kept ++ [k]) i hi' hf with ⟨s, hs, hr⟩ | ⟨j, hji, hfj, hr⟩
        · rcases List.mem_append.mp hs with hs' | hs'
          · exact Or.inl ⟨s, hs', hr⟩
          · right
            refine ⟨0, Nat.succ_pos i, ?_, ?_⟩
            · simp [hkeep]
            · have hsk : s = k := List.eq_of_mem_singleton hs'
              rw [hsk] at hr
              simpa using hr
        · right
          refine ⟨j + 1, Nat.succ_lt_succ hji, ?_, ?_⟩
          · simpa using hfj
          · simpa using hr
      | false =>
        rw [hkeep] at hf
        simp only [if_neg Bool.false_ne_true] at hf
        rcases ih kept i hi' hf with ⟨s, hs, hr⟩ | ⟨j, hji, hfj, hr⟩
        · exact Or.inl ⟨s, hs, hr⟩
        · right
          refine ⟨j + 1, Nat.succ_lt_succ hji, ?_, ?_⟩
          · simpa using hfj
          · simpa using hr

theorem dedupGo_idem (θ : ℚ) :
    ∀ (l : List ResultR) (seen : List (List Char)),
      dedupGo θ (dedupGo θ l seen) seen = dedupGo θ l seen := by
  intro l
  induction l with
  | nil => intro seen; rfl
  | cons r l ih =>
    intro seen
    by_cases hg :
        (seen.any fun s => decide (θ < sm_ratio (dedupKey r.title) s)) = true
    · simp only [dedupGo, if_pos hg]
      exact ih seen
    · simp only [dedupGo, if_neg hg]
      rw [ih]

/-! ## Claims C1 and C2: the deduplicator -/

/-- **C1.** `deduplicate_results` returns the subsequence of its input
(first conjunct) in which a position is kept exactly when its
whitespace-trimmed, case-folded title has `SequenceMatcher` ratio not
above the `0.85` threshold with the title of every previously kept
position — the output equals the input filtered by the spec-side keep
flags (second conjunct), and those flags satisfy exactly that
characterisation (third conjunct); consequently, for two positions whose
keys have similarity ratio above the threshold, at most one is kept
(fourth conjunct). -/
theorem dedup_c1 (results : List ResultR) :
    (deduplicate_results results).Sublist results ∧
    deduplicate_results results =
      maskFilter results (specFlags DEDUP_THRESHOLD results) ∧
    (∀ i, i < results.length →
      ((specFlags DEDUP_THRESHOLD results).getD i false = true ↔
        ∀ j, j < i →
          (specFlags DEDUP_THRESHOLD results).getD j false = true →
          sm_ratio (keyAt results i) (keyAt results j) ≤ DEDUP_THRESHOLD)) ∧
    (∀ i j, i < j →
      DEDUP_THRESHOLD < sm_ratio (keyAt results j) (keyAt results i) →
      ¬((specFlags DEDUP_THRESHOLD results).getD i false = true ∧
        (specFlags DEDUP_THRESHOLD results).getD j false = true)) := by
  have hlen : (results.map fun r => dedupKey r.title).length = results.length :=
    List.length_map _ _
  refine ⟨dedupGo_sublist _ results [], dedupGo_eq_maskFilter _ results [],
    ?_, ?_⟩
  · intro i hi
    have hilen : i < (results.map fun r => dedupKey r.title).length := by
      rw [hlen]; exact hi
    simp only [specFlags, keyAt]
    constructor
    · intro hfi j hji hfj
      by_contra hlt
      rw [not_le] at hlt
      have h1 := specFlagsGo_pairwise DEDUP_THRESHOLD
        (results.map fun r => dedupKey r.title) [] j i hji
      have h2 := h1 hilen
      have h3 := h2 hfj
      have hfalse := h3 hlt
      rw [hfi] at hfalse
      exact Bool.noConfusion hfalse
    · intro hall
      cases hflag : (specFlagsGo DEDUP_THRESHOLD
          (results.map fun r => dedupKey r.title) []).getD i false with
      | true => rfl
      | false =>
        have h1 := specFlagsGo_false_reason DEDUP_THRESHOLD
          (results.map fun r => dedupKey r.title) [] i hilen
        rcases h1 hflag with ⟨s, hs, _⟩ | ⟨j, hji, hfj, hr⟩
        · exact absurd hs (List.not_mem_nil s)
        · exact absurd (hall j hji hfj) (not_le.mpr hr)
  · simp only [specFlags, keyAt]
    intro i j hij hr hboth
    by_cases hjlen : j < results.length
    · have hjlen' : j < (results.map fun r => dedupKey r.title).length := by
        rw [hlen]; exact hjlen
      have h1 := specFlagsGo_pairwise DEDUP_THRESHOLD
        (results.map fun r => dedupKey r.title) [] i j hij
      have h2 := h1 hjlen'
      have h3 := h2 hboth.1
      have hfalse := h3 hr
      rw [hboth.2] at hfalse
      exact Bool.noConfusion hfalse
    · have hflen : (specFlagsGo DEDUP_THRESHOLD
          (results.map fun r => dedupKey r.title) []).length = results.length := by
        rw [specFlagsGo_length, hlen]
      have hfj : (specFlagsGo DEDUP_THRESHOLD
          (results.map fun r => dedupKey r.title) []).getD j false = false := by
        apply List.getD_eq_default
        omega
      rw [hboth.2] at hfj
      exact Bool.noConfusion hfj

set_option maxRecDepth 4000 in
/-- Witness for C1: on the spec's example
`[{title:"AI Tools 2024"}, {title:"AI tools 2024 "}]` deduplication keeps
exactly the first result, and the pairwise consequence of `dedup_c1`
applies to the two positions. -/
theorem dedup_c1_witness :
    deduplicate_results
        [⟨"AI Tools 2024", "s1", "u1"⟩, ⟨"AI tools 2024 ", "s2", "u2"⟩] =
      [⟨"AI Tools 2024", "s1", "u1"⟩] ∧
    ¬((specFlags DEDUP_THRESHOLD
        [⟨"AI Tools 2024", "s1", "u1"⟩,
         ⟨"AI tools 2024 ", "s2", "u2"⟩]).getD 0 false = true ∧
      (specFlags DEDUP_THRESHOLD
        [⟨"AI Tools 2024", "s1", "u1"⟩,
         ⟨"AI tools 2024 ", "s2", "u2"⟩]).getD 1 false = true) :=
  ⟨(dedupGo_eq_fast
      [⟨"AI Tools 2024", "s1", "u1"⟩, ⟨"AI tools 2024 ", "s2", "u2"⟩] []).trans
    (by decide),
   (dedup_c1
      [⟨"AI Tools 2024", "s1", "u1"⟩, ⟨"AI tools 2024 ", "s2", "u2"⟩]).2.2.2
    0 1 Nat.one_pos (sim_gt_of_simGt85 (by decide))⟩

/-- **C2.** Deduplication is idempotent: `deduplicate_results` applied to
its own output returns that output unchanged. -/
theorem dedup_c2 (results : List ResultR) :
    deduplicate_results (deduplicate_results results) =
      deduplicate_results results :=
  dedupGo_idem DEDUP_THRESHOLD results []

/-! ## Claim C3: query classification -/

/-- **C3.** Query classification is total and deterministic: every query
maps to exactly one of the seven categories (first conjunct); the keyword
sets are evaluated in the fixed priority order list, how-to, definition,
comparison, news, technical, general, with the first matching set winning
(second conjunct); `"top 10 AI tools"` classifies as list and
`"how to set up search"` as how-to (last conjuncts). -/
theorem classify_c3 :
    (∀ q : String, ∃! c : QueryCategory, classifyQuery q = c) ∧
    (∀ q : String,
      (is_list_query q = true → classifyQuery q = .list) ∧
      (is_list_query q = false → is_how_to_query q = true →
        classifyQuery q = .howTo) ∧
      (is_list_query q = false → is_how_to_query q = false →
        is_definition_query q = true → classifyQuery q = .definition) ∧
      (is_list_query q = false → is_how_to_query q = false →
        is_definition_query q = false → is_comparison_query q = true →
        classifyQuery q = .comparison) ∧
      (is_list_query q = false → is_how_to_query q = false →
        is_definition_query q = false → is_comparison_query q = false →
        is_news_query q = true → classifyQuery q = .news) ∧
      (is_list_query q = false → is_how_to_query q = false →
        is_definition_query q = false → is_comparison_query q = false →
        is_news_query q = false → is_technical_query q = true →
        classifyQuery q = .technical) ∧
      (is_list_query q = false → is_how_to_query q = false →
        is_definition_query q = false → is_comparison_query q = false →
        is_news_query q = false → is_technical_query q = false →
        classifyQuery q = .general)) ∧
    classifyQuery "top 10 AI tools" = .list ∧
    classifyQuery "how to set up search" = .howTo := by
  refine ⟨fun q => ⟨classifyQuery q, rfl, fun c h => h.symm⟩, ?_, ?_, ?_⟩
  · intro q
    refine ⟨?_, ?_, ?_, ?_, ?_, ?_, ?_⟩ <;> intros <;>
      simp_all [classifyQuery]
  · decide
  · decide

/-- Witness for C3: the priority characterisation of `classify_c3`
instantiated at the two example queries of the spec, with the keyword
tests discharged by evaluation. -/
theorem classify_c3_witness :
    classifyQuery "top 10 AI tools" = QueryCategory.list ∧
    classifyQuery "how to set up search" = QueryCategory.howTo :=
  ⟨(classify_c3.2.1 "top 10 AI tools").1 (by decide),
   (classify_c3.2.1 "how to set up search").2.1 (by decide) (by decide)⟩

/-! ## Support lemmas for the search aggregator -/

theorem searchLoop_stop (cfg : SearchConfig)
    (call : String → String → Nat → Except String (List SearchResultS))
    (query : String) (max_results : Nat) :
    ∀ (engines : List String) (acc : List SearchResultS),
      max_results ≤ acc.length →
      searchLoop cfg call query max_results engines acc = acc := by
  intro engines acc h
  cases engines with
  | nil => rfl
  | cons e rest => simp only [searchLoop, if_pos h]

theorem searchLoop_skip (cfg : SearchConfig)
    (call : String → String → Nat → Except String (List SearchResultS))
    (query : String) (max_results : Nat) (engine : String)
    (rest : List String) (acc : List SearchResultS) (err : String)
    (hacc : acc.length < max_results)
    (herr : engineAttempt cfg call query (max_results - acc.length) engine =
      Except.error err) :
    searchLoop cfg call query max_results (engine :: rest) acc =
      searchLoop cfg call query max_results rest acc := by
  simp only [searchLoop, if_neg (not_le.mpr hacc), herr]

theorem engineAttempt_cases (cfg : SearchConfig)
    (call : String → String → Nat → Except String (List SearchResultS))
    (query : String) (n : Nat) (e : String)
    (hfail : ∀ eng m, ∃ err, call eng query m = Except.error err) :
    engineAttempt cfg call query n e = Except.ok [] ∨
      ∃ err, engineAttempt cfg call query n e = Except.error err := by
  unfold engineAttempt
  split
  · exact Or.inr (hfail _ _)
  · split
    · exact Or.inr (hfail _ _)
    · split
      · exact Or.inr (hfail _ _)
      · split
        · exact Or.inr (hfail _ _)
        · split
          · exact Or.inr (hfail _ _)
          · exact Or.inl rfl

theorem searchLoop_allfail (cfg : SearchConfig)
    (call : String → String → Nat → Except String (List SearchResultS))
    (query : String) (max_results : Nat)
    (hfail : ∀ eng m, ∃ err, call eng query m = Except.error err) :
    ∀ engines : List String,
      searchLoop cfg call query max_results engines [] = [] := by
  intro engines
  induction engines with
  | nil => rfl
  | cons e rest ih =>
    by_cases hm : max_results ≤ ([] : List SearchResultS).length
    · simp only [searchLoop, if_pos hm]
    · rcases engineAttempt_cases cfg call query
          (max_results - ([] : List SearchResultS).length) e hfail with
        hok | ⟨err, herr⟩
      · simp only [searchLoop, if_neg hm, hok, List.append_nil]
        exact ih
      · simp only [searchLoop, if_neg hm, herr]
        exact ih

theorem engineAttempt_duckduckgo (cfg : SearchConfig)
    (call : String → String → Nat → Except String (List SearchResultS))
    (query : String) (n : Nat) :
    engineAttempt cfg call query n "duckduckgo" = call "duckduckgo" query n := by
  simp [engineAttempt]

/-! ## Claims C5 and C6: the search aggregator's error handling and cap -/

/-- **C5.** `WebSearchTool._run` never propagates a provider exception: a
raising provider is skipped and the loop moves on to the remaining
engines unchanged (first conjunct); when every provider call raises, the
result is the empty list (second conjunct); and with no credential
configured and the keyless fallback also raising, the result is again the
empty list rather than an exception (third conjunct). -/
theorem search_c5 (cfg : SearchConfig)
    (call : String → String → Nat → Except String (List SearchResultS))
    (query : String) (max_results : Nat) (preferred_engine : String) :
    (∀ (engine : String) (rest : List String) (acc : List SearchResultS)
        (err : String), acc.length < max_results →
      engineAttempt cfg call query (max_results - acc.length) engine =
        Except.error err →
      searchLoop cfg call query max_results (engine :: rest) acc =
        searchLoop cfg call query max_results rest acc) ∧
    ((∀ eng m, ∃ err, call eng query m = Except.error err) →
      WebSearchTool_run cfg call query max_results preferred_engine = []) ∧
    (cfg = ⟨false, false, false, false⟩ → preferred_engine = "auto" →
      (∀ m, ∃ err, call "duckduckgo" query m = Except.error err) →
      WebSearchTool_run cfg call query max_results preferred_engine = []) := by
  refine ⟨fun engine rest acc err hacc herr =>
    searchLoop_skip cfg call query max_results engine rest acc err hacc herr,
    ?_, ?_⟩
  · intro hfail
    unfold WebSearchTool_run
    rw [searchLoop_allfail cfg call query max_results hfail]
    exact List.take_nil
  · rintro rfl rfl hdd
    unfold WebSearchTool_run getSearchEngines
    by_cases hm : max_results ≤ ([] : List SearchResultS).length
    · simp [searchLoop_stop _ _ _ _ _ _ hm]
    · obtain ⟨err, herr⟩ :=
        hdd (max_results - ([] : List SearchResultS).length)
      simp only [ne_eq, not_true_eq_false, if_false, Bool.false_eq_true,
        List.nil_append, reduceIte]
      rw [searchLoop_skip _ _ _ _ _ _ _ err (not_le.mp hm)
        ((engineAttempt_duckduckgo _ _ _ _).trans herr)]
      simp [searchLoop]

/-- **C6.** For every query, cap, provider preference and provider
behaviour, `WebSearchTool._run` returns at most `max_results` results
(first conjunct), and the provider loop stops — returning the
accumulated results and querying no further engine — as soon as the cap
is met (second conjunct). -/
theorem search_c6 (cfg : SearchConfig)
    (call : String → String → Nat → Except String (List SearchResultS))
    (query : String) (max_results : Nat) (preferred_engine : String) :
    (WebSearchTool_run cfg call query max_results preferred_engine).length ≤
      max_results ∧
    (∀ (engines : List String) (acc : List SearchResultS),
      max_results ≤ acc.length →
      searchLoop cfg call query max_results engines acc = acc) := by
  constructor
  · unfold WebSearchTool_run
    rw [List.length_take]
    exact min_le_left _ _
  · exact searchLoop_stop cfg call query max_results

/-- Witness for C5 and C6-style hypotheses at a concrete instance: with no
credentials, auto mode, an always-raising provider oracle and cap 3, the
run returns `[]`, the skip equation applies, and the cap bound holds. -/
theorem search_c5_witness :
    WebSearchTool_run ⟨false, false, false, false⟩
      (fun _ _ _ => Except.error "connection refused") "q" 3 "auto" = [] :=
  (search_c5 ⟨false, false, false, false⟩
      (fun _ _ _ => Except.error "connection refused") "q" 3 "auto").2.1
    (fun _ _ => ⟨"connection refused", rfl⟩)

/-- Witness for C6 at a concrete instance: a provider oracle returning
five results against a cap of 2 still yields at most 2 results, and the
loop ignores engines once the cap is met. -/
theorem search_c6_witness :
    (WebSearchTool_run ⟨true, true, true, true⟩
        (fun e _ n => Except.ok (List.replicate 5
          ⟨"t", "u", "s", e, 0, none⟩ |>.take n |>.append
            (List.replicate 5 ⟨"t2", "u2", "s2", e, 0, none⟩))) "q" 2
        "auto").length ≤ 2 ∧
    searchLoop ⟨true, true, true, true⟩
        (fun e _ n => Except.ok (List.replicate 5
          ⟨"t", "u", "s", e, 0, none⟩ |>.take n |>.append
            (List.replicate 5 ⟨"t2", "u2", "s2", e, 0, none⟩))) "q" 2
        ["serper", "duckduckgo"]
        [⟨"a", "b", "c", "tavily", 0, none⟩, ⟨"d", "e", "f", "tavily", 0, none⟩] =
      [⟨"a", "b", "c", "tavily", 0, none⟩, ⟨"d", "e", "f", "tavily", 0, none⟩] :=
  ⟨(search_c6 ⟨true, true, true, true⟩ _ "q" 2 "auto").1,
   (search_c6 ⟨true, true, true, true⟩ _ "q" 2 "auto").2
     ["serper", "duckduckgo"] _ (by decide)⟩

/-! ## Claim C7: the provider preference list -/

theorem filter_static_priority (cfg : SearchConfig) :
    STATIC_PRIORITY.filter (configured cfg) =
      (((if cfg.tavily then ["tavily"] else []) ++
        (if cfg.serper then ["serper"] else [])) ++
        (if cfg.google then ["google"] else [])) ++
        (if cfg.brave then ["brave"] else []) := by
  rcases cfg with ⟨t, s, g, b⟩
  cases t <;> cases s <;> cases g <;> cases b <;> rfl

/-- **C7.** The engine order is: an explicit caller preference comes
first (first conjunct); in auto mode the list is the static priority
order (tavily, serper, google, brave) filtered to the providers with a
configured credential, followed by the keyless fallback (second
conjunct); and in every case the last engine of the list is
`"duckduckgo"` (third conjunct). -/
theorem engines_c7 (cfg : SearchConfig) (preferred : String) :
    (preferred ≠ "auto" →
      (getSearchEngines cfg preferred).head? = some preferred) ∧
    (preferred = "auto" →
      getSearchEngines cfg preferred =
        STATIC_PRIORITY.filter (configured cfg) ++ ["duckduckgo"]) ∧
    (getSearchEngines cfg preferred).getLast? = some "duckduckgo" := by
  refine ⟨?_, ?_, ?_⟩
  · intro h
    simp [getSearchEngines, h]
  · intro h
    rw [filter_static_priority]
    simp [getSearchEngines, h]
  · by_cases h : preferred = "auto"
    · subst h
      simp only [getSearchEngines, ne_eq, not_true_eq_false, if_false,
        reduceIte]
      exact List.getLast?_concat _
    · simp only [getSearchEngines, if_pos h]
      by_cases h2 : preferred = "duckduckgo"
      · subst h2
        rfl
      · simp only [ne_eq, h2, not_false_eq_true, if_pos]
        rfl

/-- Witness for C7 at concrete inputs: with only the serper and brave
credentials configured, auto mode yields
`["serper", "brave", "duckduckgo"]`; an explicit `"tavily"` preference is
put first even though no credential is configured; the last engine is
always the keyless fallback. -/
theorem engines_c7_witness :
    getSearchEngines ⟨false, true, false, true⟩ "auto" =
      ["serper", "brave", "duckduckgo"] ∧
    (getSearchEngines ⟨false, false, false, false⟩ "tavily").head? =
      some "tavily" ∧
    (getSearchEngines ⟨false, true, false, true⟩ "auto").getLast? =
      some "duckduckgo" :=
  ⟨((engines_c7 ⟨false, true, false, true⟩ "auto").2.1 rfl).trans (by decide),
   (engines_c7 ⟨false, false, false, false⟩ "tavily").1 (by decide),
   (engines_c7 ⟨false, true, false, true⟩ "auto").2.2⟩

/-! ## Claim C10: explicit preference without a credential -/

theorem run_pref_falls_back (cfg : SearchConfig)
    (call : String → String → Nat → Except String (List SearchResultS))
    (query : String) (max_results : Nat) (preferred : String)
    (h1 : preferred ≠ "auto") (h2 : preferred ≠ "duckduckgo")
    (h3 : ∀ n, engineAttempt cfg call query n preferred = Except.ok []) :
    WebSearchTool_run cfg call query max_results preferred =
      match call "duckduckgo" query max_results with
      | .ok rs => rs.take max_results
      | .error _ => [] := by
  unfold WebSearchTool_run getSearchEngines
  simp only [ne_eq, h1, not_false_eq_true, if_pos, h2]
  cases max_results with
  | zero =>
    rw [searchLoop_stop _ _ _ _ _ _ (Nat.zero_le _)]
    cases call "duckduckgo" query 0 with
    | ok rs => simp
    | error e => simp
  | succ m =>
    have hlt : ¬ (Nat.succ m ≤ ([] : List SearchResultS).length) := by simp
    simp only [searchLoop, if_neg hlt, List.length_nil, Nat.sub_zero, h3,
      List.nil_append]
    rw [engineAttempt_duckduckgo]
    cases hdd : call "duckduckgo" query (Nat.succ m) with
    | ok rs => simp [searchLoop_stop, searchLoop]
    | error e => simp [searchLoop]

/-- **C10.** When the caller explicitly prefers one of the keyed engines
(tavily, serper, google, brave) but its credential is not configured,
`WebSearchTool._run`'s branch for the preferred engine never executes and
the returned results are exactly the (capped) results of the duckduckgo
fallback — in particular the result does not depend on the preferred
engine's provider at all. -/
theorem search_c10 (cfg : SearchConfig)
    (call : String → String → Nat → Except String (List SearchResultS))
    (query : String) (max_results : Nat) (preferred : String)
    (hmem : preferred ∈ STATIC_PRIORITY)
    (hconf : configured cfg preferred = false) :
    WebSearchTool_run cfg call query max_results preferred =
      match call "duckduckgo" query max_results with
      | .ok rs => rs.take max_results
      | .error _ => [] := by
  have hcases : preferred = "tavily" ∨ preferred = "serper" ∨
      preferred = "google" ∨ preferred = "brave" := by
    simpa [STATIC_PRIORITY] using hmem
  rcases hcases with rfl | rfl | rfl | rfl <;>
    [skip; skip; skip; skip] <;>
    · simp only [configured] at hconf
      apply run_pref_falls_back cfg call query max_results _ (by decide)
        (by decide)
      intro n
      simp [engineAttempt, hconf]

/-- Witness for C10: a configuration with no tavily credential, an
explicit tavily preference, and a duckduckgo oracle returning one result:
the run returns exactly that result, untouched by the tavily oracle's
error. -/
theorem search_c10_witness :
    WebSearchTool_run ⟨false, true, true, true⟩
      (fun e _ _ =>
        if e = "duckduckgo" then
          Except.ok [⟨"DD", "https://dd", "body", "duckduckgo", 0, none⟩]
        else Except.error "no key") "q" 5 "tavily" =
      [⟨"DD", "https://dd", "body", "duckduckgo", 0, none⟩] :=
  (search_c10 ⟨false, true, true, true⟩ _ "q" 5 "tavily" (by decide)
    (by decide)).trans (by decide)

/-! ## Support lemmas for the summarize endpoint -/

theorem tryVariants_all_none (call : String → Option String) :
    ∀ ms : List String, (∀ m ∈ ms, call m = none) →
      tryVariants call ms = none := by
  intro ms
  induction ms with
  | nil => intro _; rfl
  | cons m ms ih =>
    intro h
    simp only [tryVariants, h m (List.mem_cons_self m ms)]
    exact ih fun x hx => h x (List.mem_cons_of_mem m hx)

theorem summarize_endpoint_ok (nlpFn : String → Except String (List (String × String)))
    (gpt : Except String String) (claudeCall geminiCall : String → Option String)
    (req : SummarizeRequest) (pd : PromptData)
    (hprompt : create_search_agent_prompt nlpFn req.query req.results =
      Except.ok pd) :
    summarize_endpoint nlpFn gpt claudeCall geminiCall req =
      Except.ok (summarizeDispatch req.model gpt claudeCall geminiCall) := by
  simp [summarize_endpoint, hprompt]

/-! ## Claim C4: total failure of all model variants -/

/-- **C4.** When every concrete model variant of the requested family
fails, the summarize endpoint still returns a response (no exception):
for the `claude` and `gemini` families the summary is the fixed
placeholder `"Unable to generate summary with the selected model: "`
followed by the requested family, and for `gpt-4o` (a single-variant
family handled by the outer `except`) the summary is
`"Error generating summary: "` followed by the exception text; in every
case `model_used` equals the originally requested family string. -/
theorem summarize_c4
    (nlpFn : String → Except String (List (String × String)))
    (gpt : Except String String)
    (claudeCall geminiCall : String → Option String)
    (req : SummarizeRequest) (pd : PromptData)
    (hprompt : create_search_agent_prompt nlpFn req.query req.results =
      Except.ok pd) :
    (req.model = "claude" → (∀ m ∈ CLAUDE_MODELS, claudeCall m = none) →
      summarize_endpoint nlpFn gpt claudeCall geminiCall req =
        Except.ok ⟨unableMsg "claude", "claude"⟩) ∧
    (req.model = "gemini" → (∀ m ∈ GEMINI_MODELS, geminiCall m = none) →
      summarize_endpoint nlpFn gpt claudeCall geminiCall req =
        Except.ok ⟨unableMsg "gemini", "gemini"⟩) ∧
    (req.model = "gpt-4o" → ∀ e, gpt = Except.error e →
      summarize_endpoint nlpFn gpt claudeCall geminiCall req =
        Except.ok ⟨ERROR_PREFIX ++ e, "gpt-4o"⟩) := by
  refine ⟨?_, ?_, ?_⟩
  · intro hmodel hfail
    rw [summarize_endpoint_ok nlpFn gpt claudeCall geminiCall req pd hprompt,
      hmodel]
    unfold summarizeDispatch
    rw [if_neg (by decide : ¬("claude" : String) = "gpt-4o"), if_pos rfl,
      tryVariants_all_none claudeCall CLAUDE_MODELS hfail]
  · intro hmodel hfail
    rw [summarize_endpoint_ok nlpFn gpt claudeCall geminiCall req pd hprompt,
      hmodel]
    unfold summarizeDispatch
    rw [if_neg (by decide : ¬("gemini" : String) = "gpt-4o"),
      if_neg (by decide : ¬("gemini" : String) = "claude"), if_pos rfl,
      tryVariants_all_none geminiCall GEMINI_MODELS hfail]
  · intro hmodel e he
    rw [summarize_endpoint_ok nlpFn gpt claudeCall geminiCall req pd hprompt,
      hmodel, he]
    unfold summarizeDispatch
    rw [if_pos rfl]

/-- Witness for C4: a request for the `claude` family whose five concrete
variants all fail yields the placeholder response with
`model_used = "claude"`, and a `gpt-4o` request whose single call raises
yields the outer handler's placeholder. -/
theorem summarize_c4_witness :
    summarize_endpoint (fun _ => Except.ok []) (Except.error "boom")
        (fun _ => none) (fun _ => none) ⟨"q", [], "claude"⟩ =
      Except.ok ⟨unableMsg "claude", "claude"⟩ ∧
    summarize_endpoint (fun _ => Except.ok []) (Except.error "boom")
        (fun _ => none) (fun _ => none) ⟨"q", [], "gpt-4o"⟩ =
      Except.ok ⟨ERROR_PREFIX ++ "boom", "gpt-4o"⟩ :=
  ⟨(summarize_c4 (fun _ => Except.ok []) (Except.error "boom")
      (fun _ => none) (fun _ => none) ⟨"q", [], "claude"⟩
      ⟨[], [], QueryCategory.general⟩ (by rfl)).1 rfl (fun _ _ => rfl),
   (summarize_c4 (fun _ => Except.ok []) (Except.error "boom")
      (fun _ => none) (fun _ => none) ⟨"q", [], "gpt-4o"⟩
      ⟨[], [], QueryCategory.general⟩ (by rfl)).2.2 rfl "boom" rfl⟩

/-! ## Claim C9: unrecognised model families -/

/-- **C9.** For a request whose `model` is none of `"gpt-4o"`,
`"claude"`, `"gemini"`, the endpoint dispatches to no LLM provider at all
— the response is the same for every provider oracle — and equals the
placeholder `"Unable to generate summary with the selected model: "`
followed by the requested string, with `model_used` the requested
string. -/
theorem summarize_c9
    (nlpFn : String → Except String (List (String × String)))
    (gpt : Except String String)
    (claudeCall geminiCall : String → Option String)
    (req : SummarizeRequest) (pd : PromptData)
    (hprompt : create_search_agent_prompt nlpFn req.query req.results =
      Except.ok pd)
    (h1 : req.model ≠ "gpt-4o") (h2 : req.model ≠ "claude")
    (h3 : req.model ≠ "gemini") :
    summarize_endpoint nlpFn gpt claudeCall geminiCall req =
      Except.ok ⟨"Unable to generate summary with the selected model: " ++
        req.model, req.model⟩ := by
  rw [summarize_endpoint_ok nlpFn gpt claudeCall geminiCall req pd hprompt]
  unfold summarizeDispatch
  rw [if_neg h1, if_neg h2, if_neg h3]
  rfl

/-- Witness for C9: a request for the unrecognised family `"llama"`
returns the placeholder naming `"llama"`, independently of the oracles
supplied. -/
theorem summarize_c9_witness :
    summarize_endpoint (fun _ => Except.ok []) (Except.ok "a gpt answer")
        (fun _ => some "a claude answer") (fun _ => some "a gemini answer")
        ⟨"q", [], "llama"⟩ =
      Except.ok ⟨"Unable to generate summary with the selected model: " ++
        "llama", "llama"⟩ :=
  summarize_c9 (fun _ => Except.ok []) (Except.ok "a gpt answer")
    (fun _ => some "a claude answer") (fun _ => some "a gemini answer")
    ⟨"q", [], "llama"⟩ ⟨[], [], QueryCategory.general⟩ (by rfl)
    (by decide) (by decide) (by decide)

/-! ## Claim C8: entity extraction is *not* best-effort -/

/-- Counterexample to C8: with a spaCy oracle that raises on every
snippet and a request carrying one search result, the summarize endpoint
does not complete with empty entities — `create_search_agent_prompt` is
called at line 183, *before* the `try:` of line 188, and neither
`extract_entities` nor `create_search_agent_prompt` contains any
exception handling, so the NER failure propagates out of the endpoint. -/
theorem entity_c8_counterexample :
    summarize_endpoint (fun _ => Except.error "spacy failed")
      (Except.ok "a summary") (fun _ => none) (fun _ => none)
      ⟨"query", [⟨"title", "snippet", "url"⟩], "gpt-4o"⟩ =
      Except.error "spacy failed" := by
  rfl

/-- **C8 (amended).** Entity extraction is best-effort in neither
`extract_entities` nor its callers: when the NER pass over the
deduplicated snippets fails, the failure is not replaced by empty
entities — the summarize endpoint propagates the same error to its
caller instead of returning a response. -/
theorem entity_c8_amended
    (nlpFn : String → Except String (List (String × String)))
    (gpt : Except String String)
    (claudeCall geminiCall : String → Option String)
    (req : SummarizeRequest) (e : String)
    (h : extract_entities nlpFn
        ((deduplicate_results req.results).map fun r => r.snippet) =
      Except.error e) :
    summarize_endpoint nlpFn gpt claudeCall geminiCall req =
      Except.error e := by
  simp [summarize_endpoint, create_search_agent_prompt, h]

/-- Witness for the amended C8 at a concrete input: a `claude` request
with one result and an NER oracle failing with `"ner model down"` makes
the endpoint fail with exactly that error. -/
theorem entity_c8_amended_witness :
    summarize_endpoint (fun _ => Except.error "ner model down")
      (Except.ok "a summary") (fun _ => some "claude answer")
      (fun _ => none) ⟨"some query", [⟨"A Title", "some text", "u"⟩],
        "claude"⟩ = Except.error "ner model down" :=
  entity_c8_amended (fun _ => Except.error "ner model down")
    (Except.ok "a summary") (fun _ => some "claude answer") (fun _ => none)
    ⟨"some query", [⟨"A Title", "some text", "u"⟩], "claude"⟩
    "ner model down" (by rfl)

end MultiModal
